import Mathlib

/-!
Shallow embedding of `primitives/src/ethers.rs` (conversion from ethers
types to the canonical raiko primitive types), together with theorems
about the conversion functions.

Modelling conventions:
* 256-bit unsigned integers (`ethers U256`, `alloy U256`) are four 64-bit
  limbs, little endian; each limb is a `Nat` together with a validity
  predicate bounding it by `2 ^ 64`.
* fixed byte sequences (`H160`, `H256`, `H64`, `Bloom`, `Bytes`) are lists
  of byte values (`List Nat`).
* Rust `Result<_, anyhow::Error>` together with the `unreachable!()` panic
  in the transaction conversion is modelled by `ConvResult`: `ok`,
  recoverable `err`, or `fatal` (the panic).  An error built with
  `.context("X missing")` is modelled as `ConvError.missingField "X"`; an
  error built with `anyhow!("invalid X: ...")` from a failed `try_into()`
  is modelled as `ConvError.invalidNumericConversion "X"`.
-/

namespace RaikoEthers

/-- The ethers 256-bit unsigned integer: four 64-bit limbs, little endian
(`U256(pub [u64; 4])`). -/
structure EthersU256 where
  l0 : Nat
  l1 : Nat
  l2 : Nat
  l3 : Nat
deriving Repr, DecidableEq

/-- Limb bounds guaranteed by the Rust `u64` limb type. -/
def EthersU256.Valid (x : EthersU256) : Prop :=
  x.l0 < 2 ^ 64 ∧ x.l1 < 2 ^ 64 ∧ x.l2 < 2 ^ 64 ∧ x.l3 < 2 ^ 64

instance (x : EthersU256) : Decidable x.Valid := by
  unfold EthersU256.Valid; infer_instance

/-- Numeric value of an ethers 256-bit integer. -/
def EthersU256.toNat (x : EthersU256) : Nat :=
  x.l0 + x.l1 * 2 ^ 64 + x.l2 * 2 ^ 128 + x.l3 * 2 ^ 192

/-- The alloy (canonical) 256-bit unsigned integer, also four 64-bit
limbs, little endian. -/
structure U256 where
  l0 : Nat
  l1 : Nat
  l2 : Nat
  l3 : Nat
deriving Repr, DecidableEq

/-- Numeric value of a canonical 256-bit integer. -/
def U256.toNat (x : U256) : Nat :=
  x.l0 + x.l1 * 2 ^ 64 + x.l2 * 2 ^ 128 + x.l3 * 2 ^ 192

/-- `from_ethers_u256`: `U256::from_limbs(v.0)` — the limbs are copied
verbatim. -/
def from_ethers_u256 (v : EthersU256) : U256 :=
  { l0 := v.l0, l1 := v.l1, l2 := v.l2, l3 := v.l3 }

/-- The ethers 160-bit hash/address type (`H160(pub [u8; 20])`). -/
structure EthersH160 where
  bytes : List Nat
deriving Repr, DecidableEq

/-- The canonical 160-bit byte array (`B160`). -/
structure B160 where
  bytes : List Nat
deriving Repr, DecidableEq

/-- `from_ethers_h160`: `v.0.into()` — the 20 bytes are copied verbatim. -/
def from_ethers_h160 (v : EthersH160) : B160 :=
  { bytes := v.bytes }

/-- The ethers 256-bit hash type (`H256(pub [u8; 32])`). -/
structure EthersH256 where
  bytes : List Nat
deriving Repr, DecidableEq

/-- The canonical 256-bit byte array (`B256`). -/
structure B256 where
  bytes : List Nat
deriving Repr, DecidableEq

/-- `from_ethers_h256`: `v.0.into()` — the 32 bytes are copied verbatim. -/
def from_ethers_h256 (v : EthersH256) : B256 :=
  { bytes := v.bytes }

/-- Recoverable conversion errors (`anyhow::Error` values produced by this
module, classified as in the specification's error taxonomy). -/
inductive ConvError where
  | missingField (name : String)
  | invalidNumericConversion (field : String)
deriving Repr, DecidableEq

/-- Outcome of a conversion: success, recoverable error returned to the
caller, or the fatal `unreachable!()` panic. -/
inductive ConvResult (α : Type) where
  | ok (val : α)
  | err (e : ConvError)
  | fatal
deriving Repr, DecidableEq

/-- Sequencing of fallible steps, mirroring Rust's `?` operator. -/
def ConvResult.bind {α β : Type} : ConvResult α → (α → ConvResult β) → ConvResult β
  | .ok a, f => f a
  | .err e, _ => .err e
  | .fatal, _ => .fatal

/-- `opt.context("field missing")?`: unwrap an optional field or fail with
a missing-field error naming it. -/
def requireField {α : Type} (field : String) : Option α → ConvResult α
  | some a => .ok a
  | none => .err (.missingField field)

/-- `TryFrom<U256> for u64` of the ethers integer: succeeds with the low
limb exactly when the three high limbs are zero. -/
def ethersU256TryIntoU64 (v : EthersU256) : Option Nat :=
  if v.l1 = 0 ∧ v.l2 = 0 ∧ v.l3 = 0 then some v.l0 else none

/-- `v.try_into().map_err(|err| anyhow!("invalid field: ..."))?`: the
overflow-checked narrowing of a 256-bit value to 64 bits. -/
def narrowField (field : String) (v : EthersU256) : ConvResult Nat :=
  match ethersU256TryIntoU64 v with
  | some n => .ok n
  | none => .err (.invalidNumericConversion field)

/-- Ethers access list item (`AccessListItem`). -/
structure EthersAccessListItem where
  address : EthersH160
  storage_keys : List EthersH256
deriving Repr, DecidableEq

/-- Ethers access list (`AccessList(pub Vec<AccessListItem>)`). -/
structure EthersAccessList where
  items : List EthersAccessListItem
deriving Repr, DecidableEq

/-- Canonical access list item. -/
structure AccessListItem where
  address : B160
  storage_keys : List B256
deriving Repr, DecidableEq

/-- Canonical access list. -/
structure AccessList where
  items : List AccessListItem
deriving Repr, DecidableEq

/-- `From<EthersAccessListItem> for AccessListItem`: address bytes copied,
storage keys mapped in order. -/
def accessListItemFrom (item : EthersAccessListItem) : AccessListItem :=
  { address := from_ethers_h160 item.address
    storage_keys := item.storage_keys.map from_ethers_h256 }

/-- `From<EthersAccessList> for AccessList`: items mapped in order. -/
def accessListFrom (list : EthersAccessList) : AccessList :=
  { items := list.items.map accessListItemFrom }

/-- Canonical transaction destination. -/
inductive TransactionKind where
  | Create
  | Call (address : B160)
deriving Repr, DecidableEq

/-- `From<Option<EthersH160>> for TransactionKind`: absent destination is
contract creation, a present address is a call to it. -/
def transactionKindFrom (addr : Option EthersH160) : TransactionKind :=
  match addr with
  | some address => .Call (from_ethers_h160 address)
  | none => .Create

/-- Canonical legacy transaction essence (`TxEssenceLegacy`). -/
structure TxEssenceLegacy where
  chain_id : Option Nat
  nonce : Nat
  gas_price : U256
  gas_limit : U256
  to_addr : TransactionKind
  value : U256
  data : List Nat
deriving Repr, DecidableEq

/-- Canonical EIP-2930 transaction essence (`TxEssenceEip2930`). -/
structure TxEssenceEip2930 where
  chain_id : Nat
  nonce : Nat
  gas_price : U256
  gas_limit : U256
  to_addr : TransactionKind
  value : U256
  access_list : AccessList
  data : List Nat
deriving Repr, DecidableEq

/-- Canonical EIP-1559 transaction essence (`TxEssenceEip1559`). -/
structure TxEssenceEip1559 where
  chain_id : Nat
  nonce : Nat
  max_priority_fee_per_gas : U256
  max_fee_per_gas : U256
  gas_limit : U256
  to_addr : TransactionKind
  value : U256
  access_list : AccessList
  data : List Nat
deriving Repr, DecidableEq

/-- Canonical transaction essence sum type (`TxEssence`). -/
inductive TxEssence where
  | Legacy (e : TxEssenceLegacy)
  | Eip2930 (e : TxEssenceEip2930)
  | Eip1559 (e : TxEssenceEip1559)
deriving Repr, DecidableEq

/-- Destination kind stored in a transaction essence, any variant. -/
def TxEssence.toKind : TxEssence → TransactionKind
  | .Legacy e => e.to_addr
  | .Eip2930 e => e.to_addr
  | .Eip1559 e => e.to_addr

/-- Canonical signature (`TxSignature`), carried verbatim. -/
structure TxSignature where
  v : Nat
  r : U256
  s : U256
deriving Repr, DecidableEq

/-- Canonical transaction (`Transaction`). -/
structure Transaction where
  essence : TxEssence
  signature : TxSignature
deriving Repr, DecidableEq

/-- The fields of `ethers_core::types::Transaction` that the conversion
reads.  `transaction_type` and `v` are 64-bit (`U64`) in the source, read
with `as_u64`, so they are plain `Nat` here; fields the conversion never
touches (hash, from, block number, ...) are omitted. -/
structure EthersTransaction where
  nonce : EthersU256
  gas_price : Option EthersU256
  gas : EthersU256
  to_addr : Option EthersH160
  value : EthersU256
  input : List Nat
  v : Nat
  r : EthersU256
  s : EthersU256
  transaction_type : Option Nat
  access_list : Option EthersAccessList
  max_priority_fee_per_gas : Option EthersU256
  max_fee_per_gas : Option EthersU256
  chain_id : Option EthersU256
deriving Repr, DecidableEq

/-- The legacy branch's chain-id handling: `None` stays `None`, a present
chain id is narrowed (the narrowing error propagates). -/
def legacyChainId (c : Option EthersU256) : ConvResult (Option Nat) :=
  match c with
  | none => .ok none
  | some chain_id => (narrowField "chain_id" chain_id).bind fun cid => .ok (some cid)

/-- The `None | Some(0)` branch of the transaction conversion, in the
source's evaluation order: chain id (optional), nonce, gas price. -/
def legacyEssence (tx : EthersTransaction) : ConvResult TxEssence :=
  (legacyChainId tx.chain_id).bind fun chain_id =>
  (narrowField "nonce" tx.nonce).bind fun nonce =>
  (requireField "gas_price" tx.gas_price).bind fun gas_price =>
  .ok (TxEssence.Legacy
    { chain_id := chain_id
      nonce := nonce
      gas_price := from_ethers_u256 gas_price
      gas_limit := from_ethers_u256 tx.gas
      to_addr := transactionKindFrom tx.to_addr
      value := from_ethers_u256 tx.value
      data := tx.input })

/-- The `Some(1)` branch: chain id mandatory and narrowed, nonce narrowed,
gas price mandatory, access list mandatory. -/
def eip2930Essence (tx : EthersTransaction) : ConvResult TxEssence :=
  (requireField "chain_id" tx.chain_id).bind fun chain_id_wide =>
  (narrowField "chain_id" chain_id_wide).bind fun chain_id =>
  (narrowField "nonce" tx.nonce).bind fun nonce =>
  (requireField "gas_price" tx.gas_price).bind fun gas_price =>
  (requireField "access_list" tx.access_list).bind fun access_list =>
  .ok (TxEssence.Eip2930
    { chain_id := chain_id
      nonce := nonce
      gas_price := from_ethers_u256 gas_price
      gas_limit := from_ethers_u256 tx.gas
      to_addr := transactionKindFrom tx.to_addr
      value := from_ethers_u256 tx.value
      access_list := accessListFrom access_list
      data := tx.input })

/-- The `Some(2)` branch: chain id mandatory and narrowed, nonce narrowed,
both fee fields mandatory, access list mandatory. -/
def eip1559Essence (tx : EthersTransaction) : ConvResult TxEssence :=
  (requireField "chain_id" tx.chain_id).bind fun chain_id_wide =>
  (narrowField "chain_id" chain_id_wide).bind fun chain_id =>
  (narrowField "nonce" tx.nonce).bind fun nonce =>
  (requireField "max_priority_fee_per_gas" tx.max_priority_fee_per_gas).bind
    fun max_priority_fee_per_gas =>
  (requireField "max_fee_per_gas" tx.max_fee_per_gas).bind fun max_fee_per_gas =>
  (requireField "access_list" tx.access_list).bind fun access_list =>
  .ok (TxEssence.Eip1559
    { chain_id := chain_id
      nonce := nonce
      max_priority_fee_per_gas := from_ethers_u256 max_priority_fee_per_gas
      max_fee_per_gas := from_ethers_u256 max_fee_per_gas
      gas_limit := from_ethers_u256 tx.gas
      to_addr := transactionKindFrom tx.to_addr
      value := from_ethers_u256 tx.value
      access_list := accessListFrom access_list
      data := tx.input })

/-- The `let essence = match tx.transaction_type.map(|t| t.as_u64())`
dispatch of the transaction conversion; an unmatched discriminant hits
`unreachable!()`, modelled as `fatal`. -/
def txEssenceOf (tx : EthersTransaction) : ConvResult TxEssence :=
  match tx.transaction_type with
  | none => legacyEssence tx
  | some 0 => legacyEssence tx
  | some 1 => eip2930Essence tx
  | some 2 => eip1559Essence tx
  | some _ => .fatal

/-- `TryFrom<EthersTransaction> for Transaction`: build the essence by
discriminant dispatch, then attach the signature carried verbatim. -/
def tryFromTransaction (tx : EthersTransaction) : ConvResult Transaction :=
  (txEssenceOf tx).bind fun essence =>
  .ok { essence := essence
        signature := { v := tx.v, r := from_ethers_u256 tx.r, s := from_ethers_u256 tx.s } }

/-- `ethers_core::types::Withdrawal`: `index` and `validator_index` are
64-bit (`U64`) in the source, read with `as_u64`. -/
structure EthersWithdrawal where
  index : Nat
  validator_index : Nat
  address : EthersH160
  amount : EthersU256
deriving Repr, DecidableEq

/-- Canonical withdrawal (`Withdrawal`): the amount is a 64-bit count. -/
structure Withdrawal where
  index : Nat
  validator_index : Nat
  address : B160
  amount : Nat
deriving Repr, DecidableEq

/-- `TryFrom<EthersWithdrawal> for Withdrawal`: index and validator index
copied with `as_u64`, address bytes copied, amount narrowed with the
overflow check. -/
def tryFromWithdrawal (w : EthersWithdrawal) : ConvResult Withdrawal :=
  (narrowField "amount" w.amount).bind fun amount =>
  .ok { index := w.index
        validator_index := w.validator_index
        address := from_ethers_h160 w.address
        amount := amount }

/-- Following the specification's words for the withdrawal builder: the
index and validator-index narrowings reuse the identical overflow-checked
primitive of the numeric-narrowing component (a 64-bit external value is
embedded as a 256-bit value with zero high limbs and sent through it).
This definition exists to be compared with `tryFromWithdrawal`. -/
def tryFromWithdrawalChecked (w : EthersWithdrawal) : ConvResult Withdrawal :=
  (narrowField "index" { l0 := w.index, l1 := 0, l2 := 0, l3 := 0 }).bind fun index =>
  (narrowField "validator_index" { l0 := w.validator_index, l1 := 0, l2 := 0, l3 := 0 }).bind
    fun validator_index =>
  (narrowField "amount" w.amount).bind fun amount =>
  .ok { index := index
        validator_index := validator_index
        address := from_ethers_h160 w.address
        amount := amount }

/-- The fields of `ethers_core::types::Block<TX>`.  `number` is 64-bit
(`Option<U64>`) read with `as_u64`; `nonce` is an 8-byte `Option<H64>`;
`logs_bloom` is a 256-byte `Option<Bloom>`; both are byte lists here. -/
structure EthersBlock (T : Type) where
  hash : Option EthersH256
  parent_hash : EthersH256
  uncles_hash : EthersH256
  author : Option EthersH160
  state_root : EthersH256
  transactions_root : EthersH256
  receipts_root : EthersH256
  number : Option Nat
  gas_used : EthersU256
  gas_limit : EthersU256
  extra_data : List Nat
  logs_bloom : Option (List Nat)
  timestamp : EthersU256
  difficulty : EthersU256
  total_difficulty : Option EthersU256
  seal_fields : List (List Nat)
  uncles : List EthersH256
  transactions : List T
  size : Option EthersU256
  mix_hash : Option EthersH256
  nonce : Option (List Nat)
  base_fee_per_gas : Option EthersU256
  withdrawals_root : Option EthersH256
  withdrawals : Option (List EthersWithdrawal)
deriving Repr, DecidableEq

/-- Canonical block header (`Header`). -/
structure Header where
  parent_hash : B256
  ommers_hash : B256
  beneficiary : B160
  state_root : B256
  transactions_root : B256
  receipts_root : B256
  logs_bloom : List Nat
  difficulty : U256
  number : Nat
  gas_limit : U256
  gas_used : U256
  timestamp : U256
  extra_data : List Nat
  mix_hash : B256
  nonce : List Nat
  base_fee_per_gas : U256
  withdrawals_root : Option B256
deriving Repr, DecidableEq

/-- `TryFrom<EthersBlock<T>> for Header`: the fallible field reads occur
in the source's struct-literal order — author, logs bloom, number, mix
hash, nonce, base fee per gas; the withdrawals root is mapped through
optionally. -/
def tryFromBlock {T : Type} (block : EthersBlock T) : ConvResult Header :=
  (requireField "author" block.author).bind fun author =>
  (requireField "logs_bloom" block.logs_bloom).bind fun logs_bloom =>
  (requireField "number" block.number).bind fun number =>
  (requireField "mix_hash" block.mix_hash).bind fun mix_hash =>
  (requireField "nonce" block.nonce).bind fun nonce =>
  (requireField "base_fee_per_gas" block.base_fee_per_gas).bind fun base_fee_per_gas =>
  .ok { parent_hash := from_ethers_h256 block.parent_hash
        ommers_hash := from_ethers_h256 block.uncles_hash
        beneficiary := from_ethers_h160 author
        state_root := from_ethers_h256 block.state_root
        transactions_root := from_ethers_h256 block.transactions_root
        receipts_root := from_ethers_h256 block.receipts_root
        logs_bloom := logs_bloom
        difficulty := from_ethers_u256 block.difficulty
        number := number
        gas_limit := from_ethers_u256 block.gas_limit
        gas_used := from_ethers_u256 block.gas_used
        timestamp := from_ethers_u256 block.timestamp
        extra_data := block.extra_data
        mix_hash := from_ethers_h256 mix_hash
        nonce := nonce
        base_fee_per_gas := from_ethers_u256 base_fee_per_gas
        withdrawals_root := block.withdrawals_root.map from_ethers_h256 }

/-- Whether an ethers 256-bit value fits into 64 bits according to the
overflow-checked narrowing. -/
def fitsU64 (v : EthersU256) : Bool :=
  (ethersU256TryIntoU64 v).isSome

/-- A 256-bit zero. -/
def u256Zero : EthersU256 :=
  { l0 := 0, l1 := 0, l2 := 0, l3 := 0 }

/-- The value `2 ^ 64` as an ethers 256-bit integer (second limb one):
it overflows every 64-bit narrowing. -/
def u256TwoPow64 : EthersU256 :=
  { l0 := 0, l1 := 1, l2 := 0, l3 := 0 }

/-- A legacy transaction record with every variant-mandatory field
present but an overflowing nonce of `2 ^ 64`. -/
def legacyOverflowNonceTx : EthersTransaction :=
  { nonce := u256TwoPow64
    gas_price := some { l0 := 20000000000, l1 := 0, l2 := 0, l3 := 0 }
    gas := { l0 := 21000, l1 := 0, l2 := 0, l3 := 0 }
    to_addr := none
    value := u256Zero
    input := []
    v := 27
    r := u256Zero
    s := u256Zero
    transaction_type := none
    access_list := none
    max_priority_fee_per_gas := none
    max_fee_per_gas := none
    chain_id := none }

/-- An EIP-1559 transaction record missing exactly the mandatory
`max_fee_per_gas` field, with an overflowing nonce of `2 ^ 64`. -/
def eip1559OverflowNonceTx : EthersTransaction :=
  { nonce := u256TwoPow64
    gas_price := none
    gas := { l0 := 21000, l1 := 0, l2 := 0, l3 := 0 }
    to_addr := none
    value := u256Zero
    input := []
    v := 0
    r := u256Zero
    s := u256Zero
    transaction_type := some 2
    access_list := some { items := [] }
    max_priority_fee_per_gas := some { l0 := 1, l1 := 0, l2 := 0, l3 := 0 }
    max_fee_per_gas := none
    chain_id := some { l0 := 1, l1 := 0, l2 := 0, l3 := 0 } }

/-- An EIP-1559 transaction record missing exactly the mandatory
`max_fee_per_gas` field, all narrowed fields in range. -/
def eip1559MissingMaxFeeTx : EthersTransaction :=
  { eip1559OverflowNonceTx with nonce := { l0 := 5, l1 := 0, l2 := 0, l3 := 0 } }

/-- A well-formed legacy transaction record (the specification's worked
example: no chain id, nonce 5, gas price 20 gwei, gas limit 21000, no
destination, zero value, empty data). -/
def sampleLegacyTx : EthersTransaction :=
  { nonce := { l0 := 5, l1 := 0, l2 := 0, l3 := 0 }
    gas_price := some { l0 := 20000000000, l1 := 0, l2 := 0, l3 := 0 }
    gas := { l0 := 21000, l1 := 0, l2 := 0, l3 := 0 }
    to_addr := none
    value := u256Zero
    input := []
    v := 27
    r := u256Zero
    s := u256Zero
    transaction_type := none
    access_list := none
    max_priority_fee_per_gas := none
    max_fee_per_gas := none
    chain_id := none }

/-- A transaction record with the out-of-domain discriminant 3. -/
def badDiscriminantTx : EthersTransaction :=
  { sampleLegacyTx with transaction_type := some 3 }

/-- A 32-byte sample hash. -/
def sampleHashA : EthersH256 :=
  { bytes := List.replicate 32 17 }

/-- A block record, generic in the transaction payload, with every
mandatory header field present except `base_fee_per_gas`, and no
withdrawals root. -/
def sampleBlockNoBaseFee (T : Type) (txs : List T) : EthersBlock T :=
  { hash := none
    parent_hash := sampleHashA
    uncles_hash := sampleHashA
    author := some { bytes := List.replicate 20 1 }
    state_root := sampleHashA
    transactions_root := sampleHashA
    receipts_root := sampleHashA
    number := some 100
    gas_used := u256Zero
    gas_limit := { l0 := 30000000, l1 := 0, l2 := 0, l3 := 0 }
    extra_data := []
    logs_bloom := some (List.replicate 256 0)
    timestamp := { l0 := 1700000000, l1 := 0, l2 := 0, l3 := 0 }
    difficulty := u256Zero
    total_difficulty := none
    seal_fields := []
    uncles := []
    transactions := txs
    size := none
    mix_hash := some sampleHashA
    nonce := some (List.replicate 8 0)
    base_fee_per_gas := none
    withdrawals_root := none
    withdrawals := none }

/-- The same block record with the base fee present. -/
def sampleBlockFull (T : Type) (txs : List T) : EthersBlock T :=
  { sampleBlockNoBaseFee T txs with
      base_fee_per_gas := some { l0 := 7, l1 := 0, l2 := 0, l3 := 0 } }

/-- A sample withdrawal record with an in-range amount. -/
def sampleWithdrawal : EthersWithdrawal :=
  { index := 3
    validator_index := 9
    address := { bytes := List.replicate 20 2 }
    amount := { l0 := 1000000, l1 := 0, l2 := 0, l3 := 0 } }

/-- A sample access list: item A with two storage keys, then item B with
none. -/
def sampleAccessList : EthersAccessList :=
  { items :=
      [ { address := { bytes := List.replicate 20 10 }
          storage_keys := [ { bytes := List.replicate 32 1 }, { bytes := List.replicate 32 2 } ] },
        { address := { bytes := List.replicate 20 11 }
          storage_keys := [] } ] }

/-! ## Helper lemmas -/

@[simp]
theorem ConvResult.bind_ok {α β : Type} (a : α) (f : α → ConvResult β) :
    (ConvResult.ok a).bind f = f a := rfl

@[simp]
theorem ConvResult.bind_err {α β : Type} (e : ConvError) (f : α → ConvResult β) :
    (ConvResult.err e).bind f = ConvResult.err e := rfl

@[simp]
theorem ConvResult.bind_fatal {α β : Type} (f : α → ConvResult β) :
    (ConvResult.fatal : ConvResult α).bind f = ConvResult.fatal := rfl

theorem ConvResult.bind_eq_ok {α β : Type} {x : ConvResult α} {f : α → ConvResult β} {b : β} :
    x.bind f = .ok b ↔ ∃ a, x = .ok a ∧ f a = .ok b := by
  cases x <;> simp [ConvResult.bind]

theorem ConvResult.bind_eq_err {α β : Type} {x : ConvResult α} {f : α → ConvResult β}
    {e : ConvError} :
    x.bind f = .err e ↔ x = .err e ∨ ∃ a, x = .ok a ∧ f a = .err e := by
  cases x <;> simp [ConvResult.bind]

theorem ConvResult.bind_eq_fatal {α β : Type} {x : ConvResult α} {f : α → ConvResult β} :
    x.bind f = .fatal ↔ x = .fatal ∨ ∃ a, x = .ok a ∧ f a = .fatal := by
  cases x <;> simp [ConvResult.bind]

@[simp]
theorem requireField_some {α : Type} (field : String) (a : α) :
    requireField field (some a) = .ok a := rfl

@[simp]
theorem requireField_none {α : Type} (field : String) :
    requireField field (none : Option α) = .err (.missingField field) := rfl

@[simp]
theorem requireField_eq_fatal {α : Type} (field : String) (o : Option α) :
    requireField field o = ConvResult.fatal ↔ False := by
  cases o <;> simp [requireField]

@[simp]
theorem narrowField_eq_fatal (field : String) (v : EthersU256) :
    narrowField field v = ConvResult.fatal ↔ False := by
  unfold narrowField
  cases ethersU256TryIntoU64 v <;> simp

@[simp]
theorem legacyChainId_eq_fatal (c : Option EthersU256) :
    legacyChainId c = ConvResult.fatal ↔ False := by
  cases c <;>
    simp [legacyChainId, ConvResult.bind_eq_fatal]

theorem narrowField_of_fits (field : String) (v : EthersU256) (h : fitsU64 v = true) :
    ∃ n, narrowField field v = .ok n := by
  unfold fitsU64 at h
  rcases Option.isSome_iff_exists.mp h with ⟨n, hn⟩
  exact ⟨n, by simp [narrowField, hn]⟩

theorem highLimbsZero_iff_lt (v : EthersU256) (hv : v.Valid) :
    (v.l1 = 0 ∧ v.l2 = 0 ∧ v.l3 = 0) ↔ v.toNat < 2 ^ 64 := by
  obtain ⟨h0, h1, h2, h3⟩ := hv
  have e64 : (2 : Nat) ^ 64 = 18446744073709551616 := by norm_num
  have e128 : (2 : Nat) ^ 128 = 340282366920938463463374607431768211456 := by norm_num
  have e192 : (2 : Nat) ^ 192 =
      6277101735386680763835789423207666416102355444464034512896 := by norm_num
  unfold EthersU256.toNat
  rw [e64] at h0 ⊢
  rw [e128, e192]
  omega

@[simp]
theorem legacyEssence_eq_fatal (tx : EthersTransaction) :
    legacyEssence tx = ConvResult.fatal ↔ False := by
  simp [legacyEssence, ConvResult.bind_eq_fatal]

@[simp]
theorem eip2930Essence_eq_fatal (tx : EthersTransaction) :
    eip2930Essence tx = ConvResult.fatal ↔ False := by
  simp [eip2930Essence, ConvResult.bind_eq_fatal]

@[simp]
theorem eip1559Essence_eq_fatal (tx : EthersTransaction) :
    eip1559Essence tx = ConvResult.fatal ↔ False := by
  simp [eip1559Essence, ConvResult.bind_eq_fatal]

theorem legacyEssence_ok_shape (tx : EthersTransaction) (e : TxEssence)
    (h : legacyEssence tx = .ok e) :
    ∃ cid n gp, e = TxEssence.Legacy
      { chain_id := cid
        nonce := n
        gas_price := from_ethers_u256 gp
        gas_limit := from_ethers_u256 tx.gas
        to_addr := transactionKindFrom tx.to_addr
        value := from_ethers_u256 tx.value
        data := tx.input } := by
  simp only [legacyEssence, ConvResult.bind_eq_ok] at h
  rcases h with ⟨cid, _, n, _, gp, _, he⟩
  rcases he
  exact ⟨cid, n, gp, rfl⟩

theorem eip2930Essence_ok_shape (tx : EthersTransaction) (e : TxEssence)
    (h : eip2930Essence tx = .ok e) :
    ∃ cid n gp al, e = TxEssence.Eip2930
      { chain_id := cid
        nonce := n
        gas_price := from_ethers_u256 gp
        gas_limit := from_ethers_u256 tx.gas
        to_addr := transactionKindFrom tx.to_addr
        value := from_ethers_u256 tx.value
        access_list := accessListFrom al
        data := tx.input } := by
  simp only [eip2930Essence, ConvResult.bind_eq_ok] at h
  rcases h with ⟨cw, _, cid, _, n, _, gp, _, al, _, he⟩
  rcases he
  exact ⟨cid, n, gp, al, rfl⟩

theorem eip1559Essence_ok_shape (tx : EthersTransaction) (e : TxEssence)
    (h : eip1559Essence tx = .ok e) :
    ∃ cid n mpf mf al, e = TxEssence.Eip1559
      { chain_id := cid
        nonce := n
        max_priority_fee_per_gas := from_ethers_u256 mpf
        max_fee_per_gas := from_ethers_u256 mf
        gas_limit := from_ethers_u256 tx.gas
        to_addr := transactionKindFrom tx.to_addr
        value := from_ethers_u256 tx.value
        access_list := accessListFrom al
        data := tx.input } := by
  simp only [eip1559Essence, ConvResult.bind_eq_ok] at h
  rcases h with ⟨cw, _, cid, _, n, _, mpf, _, mf, _, al, _, he⟩
  rcases he
  exact ⟨cid, n, mpf, mf, al, rfl⟩

theorem txEssenceOf_eq_none (tx : EthersTransaction) (h : tx.transaction_type = none) :
    txEssenceOf tx = legacyEssence tx := by
  unfold txEssenceOf
  rw [h]

theorem txEssenceOf_eq_zero (tx : EthersTransaction) (h : tx.transaction_type = some 0) :
    txEssenceOf tx = legacyEssence tx := by
  unfold txEssenceOf
  rw [h]

theorem txEssenceOf_eq_one (tx : EthersTransaction) (h : tx.transaction_type = some 1) :
    txEssenceOf tx = eip2930Essence tx := by
  unfold txEssenceOf
  rw [h]

theorem txEssenceOf_eq_two (tx : EthersTransaction) (h : tx.transaction_type = some 2) :
    txEssenceOf tx = eip1559Essence tx := by
  unfold txEssenceOf
  rw [h]

theorem txEssenceOf_eq_other (tx : EthersTransaction) (k : Nat)
    (h : tx.transaction_type = some (k + 3)) :
    txEssenceOf tx = .fatal := by
  unfold txEssenceOf
  rw [h]
  rfl

theorem tryFromTransaction_ok_essence (tx : EthersTransaction) (t : Transaction)
    (h : tryFromTransaction tx = .ok t) :
    txEssenceOf tx = .ok t.essence
    ∧ t.signature =
        { v := tx.v, r := from_ethers_u256 tx.r, s := from_ethers_u256 tx.s } := by
  simp only [tryFromTransaction, ConvResult.bind_eq_ok] at h
  rcases h with ⟨es, hes, ht⟩
  rcases ht
  exact ⟨hes, rfl⟩

/-! ## Claim theorems -/

/-- C3: the 64-bit overflow-checked narrowing of a 256-bit value (the
path used for the transaction nonce, the chain id, and the withdrawal
amount) fails with `InvalidNumericConversion` exactly when the value
exceeds `2 ^ 64 - 1`, succeeds with the numeric value preserved exactly
whenever it fits, and never returns anything but the exact value. -/
theorem narrow_u64_exact (field : String) (v : EthersU256) (hv : v.Valid) :
    (narrowField field v = .err (.invalidNumericConversion field) ↔ 2 ^ 64 ≤ v.toNat)
    ∧ (v.toNat < 2 ^ 64 → narrowField field v = .ok v.toNat)
    ∧ (∀ n : Nat, narrowField field v = .ok n → n = v.toNat) := by
  have hiff := highLimbsZero_iff_lt v hv
  refine ⟨?_, ?_, ?_⟩
  · constructor
    · intro h
      by_contra hlt
      push_neg at hlt
      obtain ⟨z1, z2, z3⟩ := hiff.mpr hlt
      simp [narrowField, ethersU256TryIntoU64, z1, z2, z3] at h
    · intro h
      have hz : ¬(v.l1 = 0 ∧ v.l2 = 0 ∧ v.l3 = 0) := fun hc => by
        have := hiff.mp hc
        omega
      simp [narrowField, ethersU256TryIntoU64, hz]
  · intro h
    obtain ⟨z1, z2, z3⟩ := hiff.mpr h
    have hval : v.toNat = v.l0 := by
      unfold EthersU256.toNat
      rw [z1, z2, z3]
      ring
    simp [narrowField, ethersU256TryIntoU64, z1, z2, z3, hval]
  · intro n h
    by_cases hz : v.l1 = 0 ∧ v.l2 = 0 ∧ v.l3 = 0
    · obtain ⟨z1, z2, z3⟩ := hz
      have hval : v.toNat = v.l0 := by
        unfold EthersU256.toNat
        rw [z1, z2, z3]
        ring
      simp [narrowField, ethersU256TryIntoU64, z1, z2, z3] at h
      omega
    · simp [narrowField, ethersU256TryIntoU64, hz] at h

/-- Witness for C3 at the concrete value 5: the narrowing of a small
value succeeds and preserves it. -/
theorem narrow_u64_exact_witness :
    narrowField "nonce" { l0 := 5, l1 := 0, l2 := 0, l3 := 0 } =
      .ok (EthersU256.toNat { l0 := 5, l1 := 0, l2 := 0, l3 := 0 }) :=
  (narrow_u64_exact "nonce" { l0 := 5, l1 := 0, l2 := 0, l3 := 0 }
    (by decide)).2.1 (by decide)

/-- C9: converting a 160-bit byte array, a 256-bit byte array, or a
256-bit unsigned integer to the canonical wrapper and reading back its
raw bytes (or limbs, or numeric value) yields the original unchanged:
`from_ethers_h160`, `from_ethers_h256` and `from_ethers_u256` are
lossless bit-for-bit reinterpretations. -/
theorem from_ethers_round_trip (a : EthersH160) (h : EthersH256) (v : EthersU256) :
    (from_ethers_h160 a).bytes = a.bytes
    ∧ (from_ethers_h256 h).bytes = h.bytes
    ∧ (from_ethers_u256 v).l0 = v.l0
    ∧ (from_ethers_u256 v).l1 = v.l1
    ∧ (from_ethers_u256 v).l2 = v.l2
    ∧ (from_ethers_u256 v).l3 = v.l3
    ∧ (from_ethers_u256 v).toNat = v.toNat :=
  ⟨rfl, rfl, rfl, rfl, rfl, rfl, rfl⟩

/-- C8: access list conversion is total by construction and preserves
order exactly: same number of items, the item at every position keeps its
address bytes, and its storage keys in order with their bytes. -/
theorem access_list_order (l : EthersAccessList) :
    (accessListFrom l).items.length = l.items.length
    ∧ (∀ i : Nat,
        ((accessListFrom l).items[i]?).map (fun it => it.address.bytes)
          = (l.items[i]?).map (fun it => it.address.bytes))
    ∧ (∀ i : Nat,
        ((accessListFrom l).items[i]?).map (fun it => it.storage_keys.map B256.bytes)
          = (l.items[i]?).map (fun it => it.storage_keys.map EthersH256.bytes)) := by
  refine ⟨by simp [accessListFrom], ?_, ?_⟩
  · intro i
    cases h : l.items[i]? with
    | none => simp [accessListFrom, List.getElem?_map, h]
    | some it =>
        simp [accessListFrom, List.getElem?_map, h, accessListItemFrom, from_ethers_h160]
  · intro i
    cases h : l.items[i]? with
    | none => simp [accessListFrom, List.getElem?_map, h]
    | some it =>
        simp [accessListFrom, List.getElem?_map, h, accessListItemFrom,
          List.map_map, Function.comp, from_ethers_h256]

/-- C7: the destination kind is derived solely from the external `to`
field — absent yields `Create`, a present address yields `Call` with the
address bytes preserved — and every successfully converted transaction,
whatever its variant, carries exactly that destination kind. -/
theorem transaction_kind_destination (tx : EthersTransaction) (a : EthersH160) :
    transactionKindFrom none = TransactionKind.Create
    ∧ transactionKindFrom (some a) = TransactionKind.Call (from_ethers_h160 a)
    ∧ (from_ethers_h160 a).bytes = a.bytes
    ∧ (∀ t, tryFromTransaction tx = .ok t →
        t.essence.toKind = transactionKindFrom tx.to_addr) := by
  refine ⟨rfl, rfl, rfl, ?_⟩
  intro t h
  obtain ⟨hes, -⟩ := tryFromTransaction_ok_essence tx t h
  rcases htt : tx.transaction_type with _ | d
  · rw [txEssenceOf_eq_none tx htt] at hes
    obtain ⟨cid, n, gp, he⟩ := legacyEssence_ok_shape tx t.essence hes
    rw [he]
    rfl
  · rcases d with _ | _ | _ | k
    · rw [txEssenceOf_eq_zero tx htt] at hes
      obtain ⟨cid, n, gp, he⟩ := legacyEssence_ok_shape tx t.essence hes
      rw [he]
      rfl
    · rw [txEssenceOf_eq_one tx htt] at hes
      obtain ⟨cid, n, gp, al, he⟩ := eip2930Essence_ok_shape tx t.essence hes
      rw [he]
      rfl
    · rw [txEssenceOf_eq_two tx htt] at hes
      obtain ⟨cid, n, mpf, mf, al, he⟩ := eip1559Essence_ok_shape tx t.essence hes
      rw [he]
      rfl
    · rw [txEssenceOf_eq_other tx k htt] at hes
      exact absurd hes (by simp)

/-- Witness for C7: the specification's worked legacy example converts
to a transaction whose destination kind is `Create`, derived from its
absent `to` field. -/
theorem transaction_kind_destination_witness :
    (Transaction.mk
      (TxEssence.Legacy
        { chain_id := none
          nonce := 5
          gas_price := { l0 := 20000000000, l1 := 0, l2 := 0, l3 := 0 }
          gas_limit := { l0 := 21000, l1 := 0, l2 := 0, l3 := 0 }
          to_addr := TransactionKind.Create
          value := { l0 := 0, l1 := 0, l2 := 0, l3 := 0 }
          data := [] })
      { v := 27
        r := { l0 := 0, l1 := 0, l2 := 0, l3 := 0 }
        s := { l0 := 0, l1 := 0, l2 := 0, l3 := 0 } }).essence.toKind
      = transactionKindFrom sampleLegacyTx.to_addr :=
  (transaction_kind_destination sampleLegacyTx { bytes := List.replicate 20 5 }).2.2.2
    _ rfl

/-- C4: a present discriminant outside 0, 1, 2 makes the conversion hit
the fatal `unreachable!()` branch — never a recoverable error value
returned to the caller — and under the precondition that the discriminant
is absent or in 0, 1, 2, the fatal branch is unreachable. -/
theorem discriminant_fatal (tx : EthersTransaction) :
    (∀ d, tx.transaction_type = some d → ¬(d = 0 ∨ d = 1 ∨ d = 2) →
        tryFromTransaction tx = .fatal ∧ ∀ e, tryFromTransaction tx ≠ .err e)
    ∧ ((tx.transaction_type = none ∨ tx.transaction_type = some 0 ∨
          tx.transaction_type = some 1 ∨ tx.transaction_type = some 2) →
        tryFromTransaction tx ≠ .fatal) := by
  constructor
  · intro d hd hnd
    push_neg at hnd
    obtain ⟨k, rfl⟩ : ∃ k, d = k + 3 := ⟨d - 3, by omega⟩
    have hres : tryFromTransaction tx = .fatal := by
      unfold tryFromTransaction
      rw [txEssenceOf_eq_other tx k hd]
      rfl
    refine ⟨hres, fun e he => ?_⟩
    rw [hres] at he
    exact ConvResult.noConfusion he
  · intro hdom hfat
    rw [tryFromTransaction, ConvResult.bind_eq_fatal] at hfat
    have hnf : txEssenceOf tx ≠ ConvResult.fatal := by
      rcases hdom with h | h | h | h
      · rw [txEssenceOf_eq_none tx h]; simp
      · rw [txEssenceOf_eq_zero tx h]; simp
      · rw [txEssenceOf_eq_one tx h]; simp
      · rw [txEssenceOf_eq_two tx h]; simp
    rcases hfat with h | ⟨a, -, hko⟩
    · exact hnf h
    · exact ConvResult.noConfusion hko

/-- Witness for C4: discriminant 3 is fatal, the worked legacy example
(absent discriminant) is not. -/
theorem discriminant_fatal_witness :
    tryFromTransaction badDiscriminantTx = .fatal
    ∧ tryFromTransaction sampleLegacyTx ≠ .fatal :=
  ⟨((discriminant_fatal badDiscriminantTx).1 3 rfl (by decide)).1,
   (discriminant_fatal sampleLegacyTx).2 (Or.inl rfl)⟩

/-- Counterexample to C1 as stated: a legacy record (discriminant
absent) with its only variant-mandatory field `gas_price` present, but a
nonce of `2 ^ 64`; the conversion does not succeed — the nonce narrowing
fails first. -/
theorem tx_variant_claim_cex :
    legacyOverflowNonceTx.transaction_type = none
    ∧ legacyOverflowNonceTx.gas_price.isSome = true
    ∧ tryFromTransaction legacyOverflowNonceTx
        = .err (.invalidNumericConversion "nonce") :=
  ⟨rfl, rfl, rfl⟩

/-- C1 (amended): for a record whose narrowed numeric fields fit in 64
bits (nonce, and chain id when present), if the discriminant is absent or
0 (resp. 1, resp. 2) and the variant-mandatory fields are all present,
the conversion succeeds and the essence is the `Legacy` (resp. `Eip2930`,
resp. `Eip1559`) variant, fully determined by the discriminant. -/
theorem tx_variant_determined (tx : EthersTransaction)
    (hnonce : fitsU64 tx.nonce = true)
    (hcid : ∀ c, tx.chain_id = some c → fitsU64 c = true) :
    ((tx.transaction_type = none ∨ tx.transaction_type = some 0) →
        tx.gas_price.isSome = true →
        ∃ t e, tryFromTransaction tx = .ok t ∧ t.essence = TxEssence.Legacy e)
    ∧ (tx.transaction_type = some 1 → tx.chain_id.isSome = true →
        tx.gas_price.isSome = true → tx.access_list.isSome = true →
        ∃ t e, tryFromTransaction tx = .ok t ∧ t.essence = TxEssence.Eip2930 e)
    ∧ (tx.transaction_type = some 2 → tx.chain_id.isSome = true →
        tx.max_priority_fee_per_gas.isSome = true →
        tx.max_fee_per_gas.isSome = true → tx.access_list.isSome = true →
        ∃ t e, tryFromTransaction tx = .ok t ∧ t.essence = TxEssence.Eip1559 e) := by
  obtain ⟨n, hn⟩ := narrowField_of_fits "nonce" tx.nonce hnonce
  refine ⟨?_, ?_, ?_⟩
  · intro hdisc hgp
    obtain ⟨gp, hgp⟩ := Option.isSome_iff_exists.mp hgp
    have hlc : ∃ cid, legacyChainId tx.chain_id = .ok cid := by
      cases hc : tx.chain_id with
      | none => exact ⟨none, rfl⟩
      | some c =>
          obtain ⟨m, hm⟩ := narrowField_of_fits "chain_id" c (hcid c hc)
          exact ⟨some m, by simp [legacyChainId, hm]⟩
    obtain ⟨cid, hlc⟩ := hlc
    have hess : legacyEssence tx = .ok (TxEssence.Legacy
        { chain_id := cid
          nonce := n
          gas_price := from_ethers_u256 gp
          gas_limit := from_ethers_u256 tx.gas
          to_addr := transactionKindFrom tx.to_addr
          value := from_ethers_u256 tx.value
          data := tx.input }) := by
      simp [legacyEssence, hlc, hn, hgp]
    have hT : txEssenceOf tx = legacyEssence tx := by
      rcases hdisc with h | h
      · exact txEssenceOf_eq_none tx h
      · exact txEssenceOf_eq_zero tx h
    have hok : tryFromTransaction tx = .ok
        { essence := TxEssence.Legacy
            { chain_id := cid
              nonce := n
              gas_price := from_ethers_u256 gp
              gas_limit := from_ethers_u256 tx.gas
              to_addr := transactionKindFrom tx.to_addr
              value := from_ethers_u256 tx.value
              data := tx.input }
          signature :=
            { v := tx.v, r := from_ethers_u256 tx.r, s := from_ethers_u256 tx.s } } := by
      rw [tryFromTransaction, hT, hess]
      rfl
    exact ⟨_, _, hok, rfl⟩
  · intro hdisc hcp hgp hal
    obtain ⟨c, hc⟩ := Option.isSome_iff_exists.mp hcp
    obtain ⟨m, hm⟩ := narrowField_of_fits "chain_id" c (hcid c hc)
    obtain ⟨gp, hgp⟩ := Option.isSome_iff_exists.mp hgp
    obtain ⟨al, hal⟩ := Option.isSome_iff_exists.mp hal
    have hess : eip2930Essence tx = .ok (TxEssence.Eip2930
        { chain_id := m
          nonce := n
          gas_price := from_ethers_u256 gp
          gas_limit := from_ethers_u256 tx.gas
          to_addr := transactionKindFrom tx.to_addr
          value := from_ethers_u256 tx.value
          access_list := accessListFrom al
          data := tx.input }) := by
      simp [eip2930Essence, hc, hm, hn, hgp, hal]
    have hok : tryFromTransaction tx = .ok
        { essence := TxEssence.Eip2930
            { chain_id := m
              nonce := n
              gas_price := from_ethers_u256 gp
              gas_limit := from_ethers_u256 tx.gas
              to_addr := transactionKindFrom tx.to_addr
              value := from_ethers_u256 tx.value
              access_list := accessListFrom al
              data := tx.input }
          signature :=
            { v := tx.v, r := from_ethers_u256 tx.r, s := from_ethers_u256 tx.s } } := by
      rw [tryFromTransaction, txEssenceOf_eq_one tx hdisc, hess]
      rfl
    exact ⟨_, _, hok, rfl⟩
  · intro hdisc hcp hmpf hmf hal
    obtain ⟨c, hc⟩ := Option.isSome_iff_exists.mp hcp
    obtain ⟨m, hm⟩ := narrowField_of_fits "chain_id" c (hcid c hc)
    obtain ⟨mpf, hmpf⟩ := Option.isSome_iff_exists.mp hmpf
    obtain ⟨mf, hmf⟩ := Option.isSome_iff_exists.mp hmf
    obtain ⟨al, hal⟩ := Option.isSome_iff_exists.mp hal
    have hess : eip1559Essence tx = .ok (TxEssence.Eip1559
        { chain_id := m
          nonce := n
          max_priority_fee_per_gas := from_ethers_u256 mpf
          max_fee_per_gas := from_ethers_u256 mf
          gas_limit := from_ethers_u256 tx.gas
          to_addr := transactionKindFrom tx.to_addr
          value := from_ethers_u256 tx.value
          access_list := accessListFrom al
          data := tx.input }) := by
      simp [eip1559Essence, hc, hm, hn, hmpf, hmf, hal]
    have hok : tryFromTransaction tx = .ok
        { essence := TxEssence.Eip1559
            { chain_id := m
              nonce := n
              max_priority_fee_per_gas := from_ethers_u256 mpf
              max_fee_per_gas := from_ethers_u256 mf
              gas_limit := from_ethers_u256 tx.gas
              to_addr := transactionKindFrom tx.to_addr
              value := from_ethers_u256 tx.value
              access_list := accessListFrom al
              data := tx.input }
          signature :=
            { v := tx.v, r := from_ethers_u256 tx.r, s := from_ethers_u256 tx.s } } := by
      rw [tryFromTransaction, txEssenceOf_eq_two tx hdisc, hess]
      rfl
    exact ⟨_, _, hok, rfl⟩

/-- Witness for C1: the specification's worked legacy example converts
successfully to a `Legacy` essence. -/
theorem tx_variant_determined_witness :
    ∃ t e, tryFromTransaction sampleLegacyTx = .ok t
      ∧ t.essence = TxEssence.Legacy e :=
  (tx_variant_determined sampleLegacyTx rfl
    (by intro c hc; exact Option.noConfusion hc)).1 (Or.inl rfl) rfl

/-- Counterexample to C2 as stated: an EIP-1559 record missing exactly
its mandatory `max_fee_per_gas` (every other variant-mandatory field
present) whose nonce is `2 ^ 64`; the conversion fails with the numeric
conversion error for the nonce, not `MissingField("max_fee_per_gas")`. -/
theorem tx_missing_field_cex :
    eip1559OverflowNonceTx.transaction_type = some 2
    ∧ eip1559OverflowNonceTx.max_fee_per_gas = none
    ∧ eip1559OverflowNonceTx.chain_id.isSome = true
    ∧ eip1559OverflowNonceTx.max_priority_fee_per_gas.isSome = true
    ∧ eip1559OverflowNonceTx.access_list.isSome = true
    ∧ tryFromTransaction eip1559OverflowNonceTx
        = .err (.invalidNumericConversion "nonce")
    ∧ tryFromTransaction eip1559OverflowNonceTx
        ≠ .err (.missingField "max_fee_per_gas") := by
  refine ⟨rfl, rfl, rfl, rfl, rfl, rfl, ?_⟩
  decide

/-- C2 (amended): for a record whose narrowed numeric fields fit in 64
bits (nonce, and chain id when present), if exactly one variant-mandatory
field is missing, the conversion fails with a `MissingField` error naming
that field and no other error: `gas_price` for Legacy and Eip2930,
`chain_id` and `access_list` for Eip2930 and Eip1559,
`max_priority_fee_per_gas` and `max_fee_per_gas` for Eip1559. -/
theorem tx_missing_field_error (tx : EthersTransaction)
    (hnonce : fitsU64 tx.nonce = true)
    (hcid : ∀ c, tx.chain_id = some c → fitsU64 c = true) :
    ((tx.transaction_type = none ∨ tx.transaction_type = some 0) →
        tx.gas_price = none →
        tryFromTransaction tx = .err (.missingField "gas_price"))
    ∧ (tx.transaction_type = some 1 →
        ((tx.chain_id = none → tx.gas_price.isSome = true →
            tx.access_list.isSome = true →
            tryFromTransaction tx = .err (.missingField "chain_id"))
        ∧ (tx.chain_id.isSome = true → tx.gas_price = none →
            tx.access_list.isSome = true →
            tryFromTransaction tx = .err (.missingField "gas_price"))
        ∧ (tx.chain_id.isSome = true → tx.gas_price.isSome = true →
            tx.access_list = none →
            tryFromTransaction tx = .err (.missingField "access_list"))))
    ∧ (tx.transaction_type = some 2 →
        ((tx.chain_id = none → tx.max_priority_fee_per_gas.isSome = true →
            tx.max_fee_per_gas.isSome = true → tx.access_list.isSome = true →
            tryFromTransaction tx = .err (.missingField "chain_id"))
        ∧ (tx.chain_id.isSome = true → tx.max_priority_fee_per_gas = none →
            tx.max_fee_per_gas.isSome = true → tx.access_list.isSome = true →
            tryFromTransaction tx = .err (.missingField "max_priority_fee_per_gas"))
        ∧ (tx.chain_id.isSome = true → tx.max_priority_fee_per_gas.isSome = true →
            tx.max_fee_per_gas = none → tx.access_list.isSome = true →
            tryFromTransaction tx = .err (.missingField "max_fee_per_gas"))
        ∧ (tx.chain_id.isSome = true → tx.max_priority_fee_per_gas.isSome = true →
            tx.max_fee_per_gas.isSome = true → tx.access_list = none →
            tryFromTransaction tx = .err (.missingField "access_list")))) := by
  obtain ⟨n, hn⟩ := narrowField_of_fits "nonce" tx.nonce hnonce
  have hchain : ∀ c, tx.chain_id = some c → ∃ m, narrowField "chain_id" c = .ok m :=
    fun c hc => narrowField_of_fits "chain_id" c (hcid c hc)
  refine ⟨?_, ?_, ?_⟩
  · intro hdisc hgp
    have hlc : ∃ cid, legacyChainId tx.chain_id = .ok cid := by
      cases hc : tx.chain_id with
      | none => exact ⟨none, rfl⟩
      | some c =>
          obtain ⟨m, hm⟩ := hchain c hc
          exact ⟨some m, by simp [legacyChainId, hm]⟩
    obtain ⟨cid, hlc⟩ := hlc
    have hess : legacyEssence tx = .err (.missingField "gas_price") := by
      simp [legacyEssence, hlc, hn, hgp]
    have hT : txEssenceOf tx = legacyEssence tx := by
      rcases hdisc with h | h
      · exact txEssenceOf_eq_none tx h
      · exact txEssenceOf_eq_zero tx h
    rw [tryFromTransaction, hT, hess]
    rfl
  · intro hdisc
    refine ⟨?_, ?_, ?_⟩
    · intro hc _ _
      have hess : eip2930Essence tx = .err (.missingField "chain_id") := by
        simp [eip2930Essence, hc]
      rw [tryFromTransaction, txEssenceOf_eq_one tx hdisc, hess]
      rfl
    · intro hcp hgp _
      obtain ⟨c, hc⟩ := Option.isSome_iff_exists.mp hcp
      obtain ⟨m, hm⟩ := hchain c hc
      have hess : eip2930Essence tx = .err (.missingField "gas_price") := by
        simp [eip2930Essence, hc, hm, hn, hgp]
      rw [tryFromTransaction, txEssenceOf_eq_one tx hdisc, hess]
      rfl
    · intro hcp hgp hal
      obtain ⟨c, hc⟩ := Option.isSome_iff_exists.mp hcp
      obtain ⟨m, hm⟩ := hchain c hc
      obtain ⟨gp, hgp⟩ := Option.isSome_iff_exists.mp hgp
      have hess : eip2930Essence tx = .err (.missingField "access_list") := by
        simp [eip2930Essence, hc, hm, hn, hgp, hal]
      rw [tryFromTransaction, txEssenceOf_eq_one tx hdisc, hess]
      rfl
  · intro hdisc
    refine ⟨?_, ?_, ?_, ?_⟩
    · intro hc _ _ _
      have hess : eip1559Essence tx = .err (.missingField "chain_id") := by
        simp [eip1559Essence, hc]
      rw [tryFromTransaction, txEssenceOf_eq_two tx hdisc, hess]
      rfl
    · intro hcp hmpf _ _
      obtain ⟨c, hc⟩ := Option.isSome_iff_exists.mp hcp
      obtain ⟨m, hm⟩ := hchain c hc
      have hess : eip1559Essence tx
          = .err (.missingField "max_priority_fee_per_gas") := by
        simp [eip1559Essence, hc, hm, hn, hmpf]
      rw [tryFromTransaction, txEssenceOf_eq_two tx hdisc, hess]
      rfl
    · intro hcp hmpf hmf _
      obtain ⟨c, hc⟩ := Option.isSome_iff_exists.mp hcp
      obtain ⟨m, hm⟩ := hchain c hc
      obtain ⟨mpf, hmpf⟩ := Option.isSome_iff_exists.mp hmpf
      have hess : eip1559Essence tx = .err (.missingField "max_fee_per_gas") := by
        simp [eip1559Essence, hc, hm, hn, hmpf, hmf]
      rw [tryFromTransaction, txEssenceOf_eq_two tx hdisc, hess]
      rfl
    · intro hcp hmpf hmf hal
      obtain ⟨c, hc⟩ := Option.isSome_iff_exists.mp hcp
      obtain ⟨m, hm⟩ := hchain c hc
      obtain ⟨mpf, hmpf⟩ := Option.isSome_iff_exists.mp hmpf
      obtain ⟨mf, hmf⟩ := Option.isSome_iff_exists.mp hmf
      have hess : eip1559Essence tx = .err (.missingField "access_list") := by
        simp [eip1559Essence, hc, hm, hn, hmpf, hmf, hal]
      rw [tryFromTransaction, txEssenceOf_eq_two tx hdisc, hess]
      rfl

/-- Witness for C2: an EIP-1559 record missing exactly `max_fee_per_gas`
(nonce in range) fails with `MissingField("max_fee_per_gas")`. -/
theorem tx_missing_field_error_witness :
    tryFromTransaction eip1559MissingMaxFeeTx
      = .err (.missingField "max_fee_per_gas") :=
  ((tx_missing_field_error eip1559MissingMaxFeeTx rfl
      (by intro c hc; cases hc; rfl)).2.2 rfl).2.2.1 rfl rfl rfl rfl

/-- C5: header conversion of a block missing `base_fee_per_gas` (other
mandatory fields present) fails with `MissingField("base_fee_per_gas")`;
it succeeds exactly when the six mandatory fields — author, logs bloom,
number, mix hash, nonce, base fee per gas — are all present; every
failure is a `MissingField` naming an absent mandatory field; an absent
withdrawals root is not an error and leaves the canonical field absent. -/
theorem header_missing_field {T : Type} (block : EthersBlock T) :
    (block.author.isSome = true → block.logs_bloom.isSome = true →
        block.number.isSome = true → block.mix_hash.isSome = true →
        block.nonce.isSome = true → block.base_fee_per_gas = none →
        tryFromBlock block = .err (.missingField "base_fee_per_gas"))
    ∧ ((∃ h, tryFromBlock block = .ok h) ↔
        (block.author.isSome = true ∧ block.logs_bloom.isSome = true ∧
         block.number.isSome = true ∧ block.mix_hash.isSome = true ∧
         block.nonce.isSome = true ∧ block.base_fee_per_gas.isSome = true))
    ∧ (∀ e, tryFromBlock block = .err e →
        ((e = ConvError.missingField "author" ∧ block.author = none)
         ∨ (e = ConvError.missingField "logs_bloom" ∧ block.logs_bloom = none)
         ∨ (e = ConvError.missingField "number" ∧ block.number = none)
         ∨ (e = ConvError.missingField "mix_hash" ∧ block.mix_hash = none)
         ∨ (e = ConvError.missingField "nonce" ∧ block.nonce = none)
         ∨ (e = ConvError.missingField "base_fee_per_gas"
              ∧ block.base_fee_per_gas = none)))
    ∧ (block.author.isSome = true → block.logs_bloom.isSome = true →
        block.number.isSome = true → block.mix_hash.isSome = true →
        block.nonce.isSome = true → block.base_fee_per_gas.isSome = true →
        block.withdrawals_root = none →
        ∃ h, tryFromBlock block = .ok h ∧ h.withdrawals_root = none) := by
  obtain ⟨bhash, bparent, buncs, bauthor, bstate, btxr, brcr, bnum, bgu, bgl,
    bex, bbloom, bts, bdiff, btd, bseal, bunc, btxs, bsize, bmix, bnonce, bbf,
    bwr, bw⟩ := block
  refine ⟨?_, ?_, ?_, ?_⟩
  · intro h1 h2 h3 h4 h5 h6
    obtain ⟨a, ha⟩ := Option.isSome_iff_exists.mp h1
    obtain ⟨b, hb⟩ := Option.isSome_iff_exists.mp h2
    obtain ⟨nmr, hnm⟩ := Option.isSome_iff_exists.mp h3
    obtain ⟨mx, hmx⟩ := Option.isSome_iff_exists.mp h4
    obtain ⟨no, hno⟩ := Option.isSome_iff_exists.mp h5
    simp only at ha hb hnm hmx hno h6
    subst ha hb hnm hmx hno h6
    simp [tryFromBlock]
  · cases bauthor <;> cases bbloom <;> cases bnum <;> cases bmix <;>
      cases bnonce <;> cases bbf <;> simp [tryFromBlock]
  · intro e he
    cases bauthor <;> cases bbloom <;> cases bnum <;> cases bmix <;>
      cases bnonce <;> cases bbf <;> simp_all [tryFromBlock]
  · intro h1 h2 h3 h4 h5 h6 h7
    obtain ⟨a, ha⟩ := Option.isSome_iff_exists.mp h1
    obtain ⟨b, hb⟩ := Option.isSome_iff_exists.mp h2
    obtain ⟨nmr, hnm⟩ := Option.isSome_iff_exists.mp h3
    obtain ⟨mx, hmx⟩ := Option.isSome_iff_exists.mp h4
    obtain ⟨no, hno⟩ := Option.isSome_iff_exists.mp h5
    obtain ⟨bf, hbf⟩ := Option.isSome_iff_exists.mp h6
    simp only at ha hb hnm hmx hno hbf h7
    subst ha hb hnm hmx hno hbf h7
    simp [tryFromBlock]

/-- Witness for C5: a concrete block missing only the base fee fails
with exactly that missing-field error, and the same block with the base
fee present (and no withdrawals root) converts with the canonical
withdrawals root absent. -/
theorem header_missing_field_witness :
    tryFromBlock (sampleBlockNoBaseFee Nat []) = .err (.missingField "base_fee_per_gas")
    ∧ ∃ h, tryFromBlock (sampleBlockFull Nat []) = .ok h ∧ h.withdrawals_root = none :=
  ⟨(header_missing_field (sampleBlockNoBaseFee Nat [])).1 rfl rfl rfl rfl rfl rfl,
   (header_missing_field (sampleBlockFull Nat [])).2.2.2 rfl rfl rfl rfl rfl rfl rfl⟩

/-- C6: the withdrawal conversion is extensionally the conversion whose
index and validator-index narrowings go through the same overflow-checked
64-bit narrowing primitive used for nonce, chain id and amount; it never
fails with a `MissingField` error, and it fails — with
`InvalidNumericConversion` for the amount — exactly when the amount
exceeds the 64-bit canonical amount width. -/
theorem withdrawal_narrowing (w : EthersWithdrawal) (hv : w.amount.Valid) :
    tryFromWithdrawalChecked w = tryFromWithdrawal w
    ∧ (∀ name, tryFromWithdrawal w ≠ .err (.missingField name))
    ∧ ((∃ wd, tryFromWithdrawal w = .ok wd) ↔ w.amount.toNat < 2 ^ 64)
    ∧ (2 ^ 64 ≤ w.amount.toNat →
        tryFromWithdrawal w = .err (.invalidNumericConversion "amount")) := by
  have hiff := highLimbsZero_iff_lt w.amount hv
  refine ⟨?_, ?_, ?_, ?_⟩
  · simp [tryFromWithdrawalChecked, tryFromWithdrawal, narrowField, ethersU256TryIntoU64]
  · intro name hcontra
    rcases hz : ethersU256TryIntoU64 w.amount with _ | m <;>
      simp [tryFromWithdrawal, narrowField, hz] at hcontra
  · constructor
    · rintro ⟨wd, hwd⟩
      rcases hz : ethersU256TryIntoU64 w.amount with _ | m
      · simp [tryFromWithdrawal, narrowField, hz] at hwd
      · refine hiff.mp ?_
        by_contra hc
        simp [ethersU256TryIntoU64, hc] at hz
    · intro hlt
      obtain ⟨z1, z2, z3⟩ := hiff.mpr hlt
      exact ⟨{ index := w.index
               validator_index := w.validator_index
               address := from_ethers_h160 w.address
               amount := w.amount.l0 },
        by simp [tryFromWithdrawal, narrowField, ethersU256TryIntoU64, z1, z2, z3]⟩
  · intro hge
    have hz : ¬(w.amount.l1 = 0 ∧ w.amount.l2 = 0 ∧ w.amount.l3 = 0) := fun hc => by
      have := hiff.mp hc
      omega
    simp [tryFromWithdrawal, narrowField, ethersU256TryIntoU64, hz]

/-- Witness for C6: on a concrete in-range withdrawal the checked and
actual conversions agree and the conversion succeeds. -/
theorem withdrawal_narrowing_witness :
    tryFromWithdrawalChecked sampleWithdrawal = tryFromWithdrawal sampleWithdrawal
    ∧ ∃ wd, tryFromWithdrawal sampleWithdrawal = .ok wd :=
  ⟨(withdrawal_narrowing sampleWithdrawal (by decide)).1,
   (withdrawal_narrowing sampleWithdrawal (by decide)).2.2.1.mpr (by decide)⟩

/-- C10: header conversion depends only on the block's header-level
fields — two blocks over the same payload type agreeing on them convert
identically, whatever their transactions and other non-header fields. -/
theorem header_noninterference {T : Type} (b1 b2 : EthersBlock T)
    (h1 : b1.parent_hash = b2.parent_hash)
    (h2 : b1.uncles_hash = b2.uncles_hash)
    (h3 : b1.author = b2.author)
    (h4 : b1.state_root = b2.state_root)
    (h5 : b1.transactions_root = b2.transactions_root)
    (h6 : b1.receipts_root = b2.receipts_root)
    (h7 : b1.logs_bloom = b2.logs_bloom)
    (h8 : b1.difficulty = b2.difficulty)
    (h9 : b1.number = b2.number)
    (h10 : b1.gas_limit = b2.gas_limit)
    (h11 : b1.gas_used = b2.gas_used)
    (h12 : b1.timestamp = b2.timestamp)
    (h13 : b1.extra_data = b2.extra_data)
    (h14 : b1.mix_hash = b2.mix_hash)
    (h15 : b1.nonce = b2.nonce)
    (h16 : b1.base_fee_per_gas = b2.base_fee_per_gas)
    (h17 : b1.withdrawals_root = b2.withdrawals_root) :
    tryFromBlock b1 = tryFromBlock b2 := by
  unfold tryFromBlock
  rw [h1, h2, h3, h4, h5, h6, h7, h8, h9, h10, h11, h12, h13, h14, h15, h16, h17]

/-- Witness for C10: two concrete blocks differing only in their
transactions list convert to the same result. -/
theorem header_noninterference_witness :
    tryFromBlock (sampleBlockFull Nat [1, 2, 3]) = tryFromBlock (sampleBlockFull Nat []) :=
  header_noninterference (sampleBlockFull Nat [1, 2, 3]) (sampleBlockFull Nat [])
    rfl rfl rfl rfl rfl rfl rfl rfl rfl rfl rfl rfl rfl rfl rfl rfl rfl

end RaikoEthers
